import Mathlib

/-!
Shallow embedding of `src/gnutls.c` (GnuTLS interface for the optional
HTTPS functions of a dynamic-DNS client), together with theorems settling
the behavioural claims about `verify_certificate_callback`, `ssl_open`,
`ssl_send`, `ssl_recv` and `ssl_close`.

External calls (into GnuTLS and into the TCP transport) are modelled by an
environment record `Env` fixing the result of each call site; retry loops
over `gnutls_*` calls are modelled by the list of successive results of the
looped call, with `retryLoop` extracting the first non-transient one
(`none` meaning the loop never exits).  Each embedded function also
produces a trace of the external operations it performed, so that frame
claims (no TCP connection touched, port set before connect, session torn
down) can be stated.
-/

namespace Gnutls

/-! ### GnuTLS library constants (values from the GnuTLS public headers) -/

def GNUTLS_E_INTERRUPTED : Int := -52
def GNUTLS_E_AGAIN : Int := -28
def GNUTLS_E_CERTIFICATE_ERROR : Int := -43
def GNUTLS_E_INVALID_REQUEST : Int := -50

def GNUTLS_CERT_INVALID : Nat := 2
def GNUTLS_CERT_REVOKED : Nat := 32
def GNUTLS_CERT_SIGNER_NOT_FOUND : Nat := 64
def GNUTLS_CERT_NOT_ACTIVATED : Nat := 512
def GNUTLS_CERT_EXPIRED : Nat := 1024

def GNUTLS_CRT_X509 : Int := 1

/-- Modelled from the spec: the distinct `HTTPS_*` error codes of §6
(`error.h` of the repository is not under `src/`).  Only their pairwise
distinctness and their being nonzero are relied on; the concrete numerals
are representative. -/
def RC_HTTPS_SNI_ERROR : Int := 50

def RC_HTTPS_INVALID_REQUEST : Int := 51

def RC_HTTPS_FAILED_CONNECT : Int := 52

def RC_HTTPS_FAILED_GETTING_CERT : Int := 53

def RC_HTTPS_SEND_ERROR : Int := 54

def RC_HTTPS_RECV_ERROR : Int := 55

/-! ### The client handle and the environment of external calls -/

/-- The fields of `http_t` that `gnutls.c` consults. -/
structure Http where
  ssl_enabled : Bool
deriving DecidableEq, Repr

/-- Results of the external (GnuTLS and TCP) calls, one field per call
site of `gnutls.c`.  Looped call sites carry the list of their successive
results.  `tcpSend`/`tcpRecv` are functions of the arguments the source
forwards, so that delegation claims can speak of "the same buffer and
length". -/
structure Env where
  /-- `gnutls_certificate_verify_peers2` return value. -/
  verifyRet : Int
  /-- Status bitmask stored by `gnutls_certificate_verify_peers2`. -/
  verifyStatus : Nat
  /-- `gnutls_certificate_type_get` result. -/
  certType : Int
  /-- `gnutls_x509_crt_init` result inside the verify callback. -/
  vCrtInit : Int
  /-- Whether `gnutls_certificate_get_peers` returns NULL in the callback. -/
  vCertListNull : Bool
  /-- `gnutls_x509_crt_import` result inside the verify callback. -/
  vCrtImport : Int
  /-- Whether `gnutls_x509_crt_check_hostname` reports a match. -/
  vHostnameOk : Bool
  /-- `gnutls_server_name_set` result in `ssl_open`. -/
  serverNameSetRet : Int
  /-- `gnutls_priority_set_direct` result in `ssl_open`. -/
  prioritySetRet : Int
  /-- `tcp_init` result. -/
  tcpInitRet : Int
  /-- Successive `gnutls_handshake` results. -/
  handshakeResults : List Int
  /-- `cert_list_size` stored by `gnutls_certificate_get_peers` in `ssl_open`. -/
  certListSize : Nat
  /-- `gnutls_x509_crt_init` result in `ssl_open`. -/
  oCrtInit : Int
  /-- `gnutls_x509_crt_import` result in `ssl_open` (its value is ignored
  by the source). -/
  oCrtImport : Int
  /-- Successive `gnutls_record_send` results. -/
  sendResults : List Int
  /-- Successive `gnutls_record_recv` results of the first read loop. -/
  recvResults1 : List Int
  /-- Successive `gnutls_record_recv` results of the second read loop. -/
  recvResults2 : List Int
  /-- `tcp_send` result as a function of the buffer and length passed. -/
  tcpSend : List Nat → Int → Int
  /-- `tcp_recv` outcome as a function of the capacity passed: result code
  and the value it stores through `recv_len` (`none` when it stores
  nothing). -/
  tcpRecv : Int → Int × Option Int
  /-- `gnutls_bye` result in `ssl_close` (ignored by the source). -/
  byeRet : Int
  /-- `tcp_exit` result. -/
  tcpExitRet : Int

/-- External operations, recorded in order of execution.  Retry loops are
recorded once, with the (loop-invariant) arguments of the looped call. -/
inductive Eff where
  | tcpInit
  | tcpSetPort (p : Int)
  | tcpExit
  | tcpSend
  | tcpRecv
  | sslInit
  | sessionSetPtr
  | serverNameSet
  | prioritySet
  | credentialsSet
  | transportSet
  | handshakeLoop
  | getInfo
  | getPeers
  | crtInit
  | crtImport
  | getDn
  | crtDeinit
  | sendLoop (len : Int)
  | recvLoop (off : Int) (cap : Int)
  | bye
  | deinit
deriving DecidableEq, Repr

/-- Whether an operation touches the TCP transport. -/
def Eff.isTcpOp : Eff → Bool
  | .tcpInit => true
  | .tcpSetPort _ => true
  | .tcpExit => true
  | .tcpSend => true
  | .tcpRecv => true
  | _ => false

/-- Whether an operation is a TLS-layer operation. -/
def Eff.isTlsOp (x : Eff) : Bool := ! x.isTcpOp

/-! ### Retry loops -/

/-- Whether a GnuTLS result is one of the two transient codes the source
retries on. -/
def isTransient (r : Int) : Bool :=
  r == GNUTLS_E_INTERRUPTED || r == GNUTLS_E_AGAIN

/-- Final result of a `do { ret = f(); } while (ret == GNUTLS_E_INTERRUPTED
|| ret == GNUTLS_E_AGAIN)` loop whose successive call results are `rs`:
the first non-transient result; `none` when every result is transient,
i.e. the loop never exits. -/
def retryLoop (rs : List Int) : Option Int :=
  rs.find? (fun r => ! isTransient r)

/-! ### verify_certificate_callback (gnutls.c lines 33-106) -/

/-- Embedding of `verify_certificate_callback`.  The warning-only flag
tests (signer-not-found, revoked, expired, not-activated) produce log
lines and fall through, so they do not appear in the result; every fatal
branch returns `GNUTLS_E_CERTIFICATE_ERROR` and the final fall-through
returns 0. -/
def verify_certificate_callback (e : Env) : Int :=
  if e.verifyRet < 0 then GNUTLS_E_CERTIFICATE_ERROR
  else if e.verifyStatus &&& GNUTLS_CERT_INVALID ≠ 0 then GNUTLS_E_CERTIFICATE_ERROR
  else if e.certType ≠ GNUTLS_CRT_X509 then GNUTLS_E_CERTIFICATE_ERROR
  else if e.vCrtInit < 0 then GNUTLS_E_CERTIFICATE_ERROR
  else if e.vCertListNull then GNUTLS_E_CERTIFICATE_ERROR
  else if e.vCrtImport < 0 then GNUTLS_E_CERTIFICATE_ERROR
  else if e.vHostnameOk = false then GNUTLS_E_CERTIFICATE_ERROR
  else 0

/-! ### ssl_open (gnutls.c lines 148-227) -/

/-- Trace prefix of the TLS path of `ssl_open` up to and including the SNI
call (`gnutls_init`, `gnutls_session_set_ptr`, `gnutls_server_name_set`). -/
def openSniTrace : List Eff := [Eff.sslInit, Eff.sessionSetPtr, Eff.serverNameSet]

/-- Trace prefix of the TLS path of `ssl_open` up to and including
`tcp_init` (after priority and credentials setup and `tcp_set_port(443)`). -/
def openConnectTrace : List Eff :=
  openSniTrace ++ [Eff.prioritySet, Eff.credentialsSet, Eff.tcpSetPort 443, Eff.tcpInit]

/-- Embedding of `ssl_open`.  Returns the result code and the trace of
external operations; `none` models a handshake retry loop that never
exits.  The `DO(tcp_init(...))` line propagates a nonzero `tcp_init`
result unchanged (the `DO` macro lives outside `src/`; modelled from the
spec: "propagate any TCP error").  Note the source ignores the result of
`gnutls_x509_crt_import` during post-handshake introspection. -/
def ssl_open (e : Env) (c : Http) : Option (Int × List Eff) :=
  if c.ssl_enabled = false then
    some (e.tcpInitRet, [Eff.tcpInit])
  else
    if e.serverNameSetRet ≠ 0 then
      some (RC_HTTPS_SNI_ERROR, openSniTrace)
    else if e.prioritySetRet < 0 then
      some (RC_HTTPS_INVALID_REQUEST, openSniTrace ++ [Eff.prioritySet])
    else
      if e.tcpInitRet ≠ 0 then
        some (e.tcpInitRet, openConnectTrace)
      else
        match retryLoop e.handshakeResults with
        | none => none
        | some hs =>
          if hs < 0 then
            some (RC_HTTPS_FAILED_CONNECT,
              openConnectTrace ++ [Eff.transportSet, Eff.handshakeLoop])
          else
            if 0 < e.certListSize then
              if e.oCrtInit ≠ 0 then
                some (RC_HTTPS_FAILED_GETTING_CERT,
                  openConnectTrace ++ [Eff.transportSet, Eff.handshakeLoop,
                    Eff.getInfo, Eff.getPeers, Eff.crtInit])
              else
                some (0,
                  openConnectTrace ++ [Eff.transportSet, Eff.handshakeLoop,
                    Eff.getInfo, Eff.getPeers, Eff.crtInit, Eff.crtImport,
                    Eff.getDn, Eff.getDn, Eff.crtDeinit])
            else
              some (0,
                openConnectTrace ++ [Eff.transportSet, Eff.handshakeLoop,
                  Eff.getInfo, Eff.getPeers])

/-! ### ssl_close (gnutls.c lines 229-237) -/

/-- Embedding of `ssl_close`: on the TLS path `gnutls_bye(GNUTLS_SHUT_WR)`
and `gnutls_deinit` run first, with the `gnutls_bye` result discarded;
in every case `tcp_exit` runs and its status is the result. -/
def ssl_close (e : Env) (c : Http) : Int × List Eff :=
  if c.ssl_enabled = false then
    (e.tcpExitRet, [Eff.tcpExit])
  else
    (e.tcpExitRet, [Eff.bye, Eff.deinit, Eff.tcpExit])

/-! ### ssl_send (gnutls.c lines 239-256) -/

/-- Embedding of `ssl_send` on buffer `buf` of (claimed) length `len`:
delegate to `tcp_send` when TLS is off, otherwise run the record-send
retry loop once and map any negative final result to
`RC_HTTPS_SEND_ERROR`, any non-negative one to 0. -/
def ssl_send (e : Env) (c : Http) (buf : List Nat) (len : Int) :
    Option (Int × List Eff) :=
  if c.ssl_enabled = false then
    some (e.tcpSend buf len, [Eff.tcpSend])
  else
    match retryLoop e.sendResults with
    | none => none
    | some r =>
      if r < 0 then some (RC_HTTPS_SEND_ERROR, [Eff.sendLoop len])
      else some (0, [Eff.sendLoop len])

/-- Modelled from the spec (§4.4, §9): a non-negative `gnutls_record_send`
result is the number of bytes of the buffer accepted into the record
layer — possibly fewer than requested — and a cooperating peer receives
exactly that prefix of the buffer, in order.  `none` models a send loop
that never exits, a negative final result delivers nothing. -/
def peerReceives (e : Env) (buf : List Nat) : Option (List Nat) :=
  match retryLoop e.sendResults with
  | none => none
  | some r => if r < 0 then some [] else some (buf.take r.toNat)

/-! ### ssl_recv (gnutls.c lines 258-291) -/

/-- Embedding of `ssl_recv` with capacity `buf_len`: delegate to
`tcp_recv` when TLS is off; otherwise a first record-recv retry loop at
offset 0 with capacity `buf_len` (negative final result:
`RC_HTTPS_RECV_ERROR`), then a second at offset `r1` with the remaining
capacity (negative final result: `RC_HTTPS_RECV_ERROR`), and on success
`r1 + r2` is stored through `recv_len`.  The middle component is the
value stored through `recv_len` (`none`: nothing stored). -/
def ssl_recv (e : Env) (c : Http) (buf_len : Int) :
    Option (Int × Option Int × List Eff) :=
  if c.ssl_enabled = false then
    some ((e.tcpRecv buf_len).1, (e.tcpRecv buf_len).2, [Eff.tcpRecv])
  else
    match retryLoop e.recvResults1 with
    | none => none
    | some r1 =>
      if r1 < 0 then
        some (RC_HTTPS_RECV_ERROR, none, [Eff.recvLoop 0 buf_len])
      else
        match retryLoop e.recvResults2 with
        | none => none
        | some r2 =>
          if r2 < 0 then
            some (RC_HTTPS_RECV_ERROR, none,
              [Eff.recvLoop 0 buf_len, Eff.recvLoop r1 (buf_len - r1)])
          else
            some (0, some (r1 + r2),
              [Eff.recvLoop 0 buf_len, Eff.recvLoop r1 (buf_len - r1)])

/-! ### Concrete handles and environments used by witnesses -/

/-- A handle with TLS enabled. -/
def cTLS : Http := ⟨true⟩

/-- A handle with TLS disabled. -/
def cPlain : Http := ⟨false⟩

/-- A happy-path environment: verification succeeds, SNI and priority
succeed, `tcp_init` succeeds, one handshake attempt succeeds after one
transient result, one certificate in the peer list, record I/O succeeds. -/
def envW : Env :=
  ⟨0, 0, GNUTLS_CRT_X509, 0, false, 0, true,
   0, 0, 0, [GNUTLS_E_AGAIN, 0], 1, 0, 0,
   [5], [4], [3],
   fun _ _ => 0, fun _ => (0, some 7), 0, 0⟩

/-- A variant of `envW` whose only warning flags are set in the verify
status, to witness C1: signer-not-found + revoked + expired +
not-activated, nothing fatal. -/
def envWarn : Env :=
  ⟨0, GNUTLS_CERT_SIGNER_NOT_FOUND + GNUTLS_CERT_REVOKED +
     GNUTLS_CERT_EXPIRED + GNUTLS_CERT_NOT_ACTIVATED,
   GNUTLS_CRT_X509, 0, false, 0, true,
   0, 0, 0, [0], 1, 0, 0,
   [5], [4], [3],
   fun _ _ => 0, fun _ => (0, some 7), 0, 0⟩

/-- A variant of `envW` where `tcp_init` fails with code −7. -/
def envTcpFail : Env :=
  ⟨0, 0, GNUTLS_CRT_X509, 0, false, 0, true,
   0, 0, -7, [0], 1, 0, 0,
   [5], [4], [3],
   fun _ _ => 0, fun _ => (0, some 7), 0, 0⟩

/-- A variant of `envW` where the record-send loop accepts 0 bytes:
final `gnutls_record_send` result 0 on a nonempty buffer. -/
def envSendZero : Env :=
  ⟨0, 0, GNUTLS_CRT_X509, 0, false, 0, true,
   0, 0, 0, [0], 1, 0, 0,
   [GNUTLS_E_INTERRUPTED, 0], [4], [3],
   fun _ _ => 0, fun _ => (0, some 7), 0, 0⟩

/-- A variant of `envW` where the second record-recv loop fails with a
non-transient negative result. -/
def envRecvFail : Env :=
  ⟨0, 0, GNUTLS_CRT_X509, 0, false, 0, true,
   0, 0, 0, [0], 1, 0, 0,
   [5], [4], [GNUTLS_E_AGAIN, -10],
   fun _ _ => 0, fun _ => (0, some 7), 0, 0⟩

/-- A variant of `envW` where `gnutls_server_name_set` fails. -/
def envSniFail : Env :=
  ⟨0, 0, GNUTLS_CRT_X509, 0, false, 0, true,
   -1, 0, 0, [0], 1, 0, 0,
   [5], [4], [3],
   fun _ _ => 0, fun _ => (0, some 7), 0, 0⟩

/-- The disjunction of the seven fatal conditions of the callback. -/
def verifyFatal (e : Env) : Prop :=
  e.verifyRet < 0 ∨ e.verifyStatus &&& GNUTLS_CERT_INVALID ≠ 0 ∨
  e.certType ≠ GNUTLS_CRT_X509 ∨ e.vCrtInit < 0 ∨ e.vCertListNull = true ∨
  e.vCrtImport < 0 ∨ e.vHostnameOk = false

instance (e : Env) : Decidable (verifyFatal e) := by
  unfold verifyFatal; infer_instance

/-- C1: the callback returns the certificate-error sentinel exactly when
verification itself fails, the chain-invalid flag is set, the type is not
X.509, the parse context cannot be allocated, no peer certificate is
present, DER import fails, or the hostname match fails; when none of
these holds — in particular when only the signer-not-found, revoked,
expired, not-activated flags are set — it returns 0. -/
theorem c1_verify_callback_sentinel (e : Env) :
    (verify_certificate_callback e = GNUTLS_E_CERTIFICATE_ERROR ↔ verifyFatal e)
    ∧ (¬ verifyFatal e → verify_certificate_callback e = 0) := by
  unfold verify_certificate_callback verifyFatal
  split_ifs with h1 h2 h3 h4 h5 h6 h7 <;>
    constructor <;>
    simp_all [GNUTLS_E_CERTIFICATE_ERROR]

/-- Witness for C1: with all four warning flags set and nothing fatal,
the callback returns 0. -/
theorem c1_verify_callback_sentinel_witness :
    ¬ verifyFatal envWarn ∧ verify_certificate_callback envWarn = 0 :=
  ⟨by decide, (c1_verify_callback_sentinel envWarn).2 (by decide)⟩

/-- C2: with `ssl_enabled = false`, `ssl_open`, `ssl_send`, `ssl_recv`
and `ssl_close` return exactly the result of `tcp_init`, `tcp_send` (on
the same buffer and length), `tcp_recv` (with the same stored output
length) and `tcp_exit`, and their traces contain only TCP operations — no
TLS operation is performed. -/
theorem c2_plain_delegation (e : Env) (c : Http) (h : c.ssl_enabled = false) :
    ssl_open e c = some (e.tcpInitRet, [Eff.tcpInit])
    ∧ (∀ buf len, ssl_send e c buf len = some (e.tcpSend buf len, [Eff.tcpSend]))
    ∧ (∀ bl, ssl_recv e c bl = some ((e.tcpRecv bl).1, (e.tcpRecv bl).2, [Eff.tcpRecv]))
    ∧ ssl_close e c = (e.tcpExitRet, [Eff.tcpExit])
    ∧ (∀ res tr, ssl_open e c = some (res, tr) → tr.all Eff.isTcpOp = true)
    ∧ (∀ buf len res tr, ssl_send e c buf len = some (res, tr) →
        tr.all Eff.isTcpOp = true)
    ∧ (∀ bl res out tr, ssl_recv e c bl = some (res, out, tr) →
        tr.all Eff.isTcpOp = true)
    ∧ (ssl_close e c).2.all Eff.isTcpOp = true := by
  simp [ssl_open, ssl_send, ssl_recv, ssl_close, h, Eff.isTcpOp]

/-- Witness for C2: on a plain handle, `ssl_open` returns the `tcp_init`
result. -/
theorem c2_plain_delegation_witness :
    ssl_open envW cPlain = some (0, [Eff.tcpInit]) :=
  (c2_plain_delegation envW cPlain rfl).1

/-- C3: the handshake retry loop retries exactly on `INTERRUPTED`/`AGAIN`
and otherwise exits with the current result; on the TLS path a negative
final handshake result makes `ssl_open` return `RC_HTTPS_FAILED_CONNECT`,
while a non-negative one lets `ssl_open` continue past the handshake
(trace reaches the session-descriptor step) with a result different from
`RC_HTTPS_FAILED_CONNECT`. -/
theorem c3_handshake_retry (e : Env) (c : Http) (h : c.ssl_enabled = true)
    (hsni : e.serverNameSetRet = 0) (hprio : 0 ≤ e.prioritySetRet)
    (htcp : e.tcpInitRet = 0) :
    (∀ r rs, isTransient r = true → retryLoop (r :: rs) = retryLoop rs)
    ∧ (∀ r rs, isTransient r = false → retryLoop (r :: rs) = some r)
    ∧ (∀ hs, retryLoop e.handshakeResults = some hs → hs < 0 →
        ssl_open e c = some (RC_HTTPS_FAILED_CONNECT,
          openConnectTrace ++ [Eff.transportSet, Eff.handshakeLoop]))
    ∧ (∀ hs, retryLoop e.handshakeResults = some hs → 0 ≤ hs →
        ∃ res tr, ssl_open e c = some (res, tr)
          ∧ res ≠ RC_HTTPS_FAILED_CONNECT ∧ Eff.getInfo ∈ tr) := by
  refine ⟨?_, ?_, ?_, ?_⟩
  · intro r rs ht
    simp [retryLoop, List.find?_cons, ht]
  · intro r rs ht
    simp [retryLoop, List.find?_cons, ht]
  · intro hs hr hneg
    simp [ssl_open, h, hsni, htcp, hr, not_lt.mpr hprio, hneg]
  · intro hs hr hpos
    simp only [ssl_open, h, Bool.true_eq_false, if_false, hsni, htcp,
      not_lt.mpr hprio, if_neg, hr, ite_not]
    simp [not_lt.mpr hpos]
    split_ifs with h1 h2
    all_goals exact ⟨_, _, rfl, by decide, by simp⟩

/-- Witness for C3: with one transient then one successful handshake
result, `ssl_open` on the happy-path environment does not fail with
`RC_HTTPS_FAILED_CONNECT` and continues past the handshake. -/
theorem c3_handshake_retry_witness :
    ∃ res tr, ssl_open envW cTLS = some (res, tr)
      ∧ res ≠ RC_HTTPS_FAILED_CONNECT ∧ Eff.getInfo ∈ tr :=
  (c3_handshake_retry envW cTLS rfl rfl (by decide) rfl).2.2.2 0 (by decide)
    (by decide)

/-- C5: on the TLS path `ssl_recv` performs exactly two retry-looped
reads — the first at offset 0 with capacity `buf_len`, the second at
offset `r1` with capacity `buf_len - r1` — returns `RC_HTTPS_RECV_ERROR`
whenever either loop's final result is negative, and on success stores
`r1 + r2` through `recv_len`. -/
theorem c5_recv_two_reads (e : Env) (c : Http) (h : c.ssl_enabled = true)
    (bl : Int) :
    (∀ r1, retryLoop e.recvResults1 = some r1 → r1 < 0 →
      ssl_recv e c bl = some (RC_HTTPS_RECV_ERROR, none, [Eff.recvLoop 0 bl]))
    ∧ (∀ r1 r2, retryLoop e.recvResults1 = some r1 → 0 ≤ r1 →
        retryLoop e.recvResults2 = some r2 → r2 < 0 →
        ssl_recv e c bl = some (RC_HTTPS_RECV_ERROR, none,
          [Eff.recvLoop 0 bl, Eff.recvLoop r1 (bl - r1)]))
    ∧ (∀ r1 r2, retryLoop e.recvResults1 = some r1 → 0 ≤ r1 →
        retryLoop e.recvResults2 = some r2 → 0 ≤ r2 →
        ssl_recv e c bl = some (0, some (r1 + r2),
          [Eff.recvLoop 0 bl, Eff.recvLoop r1 (bl - r1)])) := by
  refine ⟨?_, ?_, ?_⟩
  · intro r1 hr1 hneg
    simp [ssl_recv, h, hr1, hneg]
  · intro r1 r2 hr1 hpos1 hr2 hneg2
    simp [ssl_recv, h, hr1, hr2, not_lt.mpr hpos1, hneg2]
  · intro r1 r2 hr1 hpos1 hr2 hpos2
    simp [ssl_recv, h, hr1, hr2, not_lt.mpr hpos1, not_lt.mpr hpos2]

/-- Witness for C5: first read yields 4 bytes, second 3; `ssl_recv`
returns 0 and stores 7. -/
theorem c5_recv_two_reads_witness :
    ssl_recv envW cTLS 100 = some (0, some 7,
      [Eff.recvLoop 0 100, Eff.recvLoop 4 96]) := by
  have h := (c5_recv_two_reads envW cTLS rfl 100).2.2 4 3 (by decide) (by decide)
    (by decide) (by decide)
  simpa using h

/-- C6: `ssl_close` always returns exactly the `tcp_exit` status (the
`gnutls_bye` result, part of the quantified environment, never affects
it); on the TLS path the trace is write-shutdown, session destruction,
then TCP close, and otherwise just TCP close. -/
theorem c6_close_best_effort (e : Env) (c : Http) :
    (ssl_close e c).1 = e.tcpExitRet
    ∧ (c.ssl_enabled = true →
        (ssl_close e c).2 = [Eff.bye, Eff.deinit, Eff.tcpExit])
    ∧ (c.ssl_enabled = false → (ssl_close e c).2 = [Eff.tcpExit])
    ∧ Eff.tcpExit ∈ (ssl_close e c).2 := by
  cases c with
  | mk b => cases b <;> simp [ssl_close]

/-- Witness for C6: a TLS handle closes with the `tcp_exit` status and
the bye-deinit-exit trace. -/
theorem c6_close_best_effort_witness :
    (ssl_close envW cTLS).1 = 0
    ∧ (ssl_close envW cTLS).2 = [Eff.bye, Eff.deinit, Eff.tcpExit] :=
  ⟨(c6_close_best_effort envW cTLS).1, (c6_close_best_effort envW cTLS).2.1 rfl⟩

/-- C7: on the TLS path past SNI and priority setup, every trace
`ssl_open` can produce extends `openConnectTrace`, whose last two
operations are `tcp_set_port 443` immediately followed by `tcp_init`; a
nonzero `tcp_init` result is returned unchanged; and on a non-TLS handle
no `tcp_set_port` operation occurs, so the caller-configured port is used
only there. -/
theorem c7_port_443_before_connect (e : Env) (c : Http)
    (h : c.ssl_enabled = true) (hsni : e.serverNameSetRet = 0)
    (hprio : 0 ≤ e.prioritySetRet) :
    (∀ res tr, ssl_open e c = some (res, tr) →
      ∃ rest, tr = openConnectTrace ++ rest)
    ∧ (e.tcpInitRet ≠ 0 → ssl_open e c = some (e.tcpInitRet, openConnectTrace))
    ∧ (∀ e' c', c'.ssl_enabled = false → ∀ res tr,
        ssl_open e' c' = some (res, tr) → ∀ p, Eff.tcpSetPort p ∉ tr) := by
  refine ⟨?_, ?_, ?_⟩
  · intro res tr heq
    by_cases htcp : e.tcpInitRet = 0
    · rcases hr : retryLoop e.handshakeResults with _ | hs
      · simp [ssl_open, h, hsni, htcp, hr, not_lt.mpr hprio] at heq
      · rw [ssl_open] at heq
        simp only [h, Bool.true_eq_false, if_false, hr] at heq
        rw [if_neg (by simp [hsni]), if_neg (not_lt.mpr hprio),
          if_neg (by simp [htcp])] at heq
        split_ifs at heq <;>
          (simp only [Option.some.injEq, Prod.mk.injEq] at heq
           exact ⟨_, heq.2.symm⟩)
    · rw [ssl_open] at heq
      simp only [h, Bool.true_eq_false, if_false] at heq
      rw [if_neg (by simp [hsni]), if_neg (not_lt.mpr hprio),
        if_pos htcp] at heq
      simp only [Option.some.injEq, Prod.mk.injEq] at heq
      refine ⟨[], ?_⟩
      rw [← heq.2, List.append_nil]
  · intro htcp
    simp [ssl_open, h, hsni, htcp, not_lt.mpr hprio]
  · intro e' c' h' res tr heq p
    rw [ssl_open, if_pos h'] at heq
    simp only [Option.some.injEq, Prod.mk.injEq] at heq
    rw [← heq.2]
    simp

/-- Witness for C7: with `tcp_init` failing with −7, `ssl_open` returns
−7 with the connect-attempt trace. -/
theorem c7_port_443_before_connect_witness :
    ssl_open envTcpFail cTLS = some (-7, openConnectTrace) :=
  (c7_port_443_before_connect envTcpFail cTLS rfl rfl (by decide)).2.1 (by decide)

/-- C8: after a successful handshake, with a non-empty peer certificate
list `ssl_open` returns `RC_HTTPS_FAILED_GETTING_CERT` exactly when the
X.509 parse-context initialization of the post-handshake introspection
fails; when it succeeds `ssl_open` returns 0 — for every value of the
(unchecked) DER-import result, which is part of the quantified
environment — and with an empty list `ssl_open` returns 0 as well. -/
theorem c8_failed_getting_cert (e : Env) (c : Http) (h : c.ssl_enabled = true)
    (hsni : e.serverNameSetRet = 0) (hprio : 0 ≤ e.prioritySetRet)
    (htcp : e.tcpInitRet = 0) (hs : Int)
    (hhs : retryLoop e.handshakeResults = some hs) (hpos : 0 ≤ hs) :
    (0 < e.certListSize →
      ((∃ tr, ssl_open e c = some (RC_HTTPS_FAILED_GETTING_CERT, tr)) ↔
        e.oCrtInit ≠ 0)
      ∧ (e.oCrtInit = 0 → ∃ tr, ssl_open e c = some (0, tr)))
    ∧ (e.certListSize = 0 → ∃ tr, ssl_open e c = some (0, tr)) := by
  rw [ssl_open]
  simp only [h, Bool.true_eq_false, if_false, hsni, htcp, hhs,
    not_lt.mpr hprio, not_lt.mpr hpos]
  simp
  constructor
  · intro hsize
    simp [hsize]
    by_cases hinit : e.oCrtInit = 0
    · simp [hinit, RC_HTTPS_FAILED_GETTING_CERT]
    · simp [hinit]
  · intro hsize
    simp [hsize]

/-- Witness for C8: happy path with one peer certificate and a
successful parse-context initialization returns 0. -/
theorem c8_failed_getting_cert_witness :
    ∃ tr, ssl_open envW cTLS = some (0, tr) :=
  ((c8_failed_getting_cert envW cTLS rfl rfl (by decide) rfl 0 (by decide)
    (by decide)).1 (by decide)).2 rfl

/-- C9: when the SNI call fails, `ssl_open` returns `RC_HTTPS_SNI_ERROR`
with a trace of TLS-layer operations only, and when SNI succeeds but the
priority call fails, it returns `RC_HTTPS_INVALID_REQUEST` likewise: in
both cases no `tcp_set_port`/`tcp_init` (indeed no TCP operation at all)
has run. -/
theorem c9_early_errors_no_tcp (e : Env) (c : Http) (h : c.ssl_enabled = true) :
    (e.serverNameSetRet ≠ 0 →
      ssl_open e c = some (RC_HTTPS_SNI_ERROR, openSniTrace)
      ∧ openSniTrace.all Eff.isTlsOp = true)
    ∧ (e.serverNameSetRet = 0 → e.prioritySetRet < 0 →
      ssl_open e c = some (RC_HTTPS_INVALID_REQUEST,
        openSniTrace ++ [Eff.prioritySet])
      ∧ (openSniTrace ++ [Eff.prioritySet]).all Eff.isTlsOp = true) := by
  refine ⟨fun hsni => ⟨?_, by decide⟩, fun hsni hprio => ⟨?_, by decide⟩⟩
  · simp [ssl_open, h, hsni]
  · simp [ssl_open, h, hsni, hprio]

/-- Witness for C9: a failing SNI call yields `RC_HTTPS_SNI_ERROR` with
the three-operation TLS-only trace. -/
theorem c9_early_errors_no_tcp_witness :
    ssl_open envSniFail cTLS = some (RC_HTTPS_SNI_ERROR, openSniTrace)
    ∧ openSniTrace.all Eff.isTlsOp = true :=
  (c9_early_errors_no_tcp envSniFail cTLS rfl).1 (by decide)

/-- C10: on the TLS path, whenever `ssl_recv` returns
`RC_HTTPS_RECV_ERROR` the `recv_len` output slot is left untouched. -/
theorem c10_recv_len_untouched (e : Env) (c : Http) (bl : Int)
    (h : c.ssl_enabled = true) (out : Option Int) (tr : List Eff)
    (heq : ssl_recv e c bl = some (RC_HTTPS_RECV_ERROR, out, tr)) :
    out = none := by
  rw [ssl_recv] at heq
  simp only [h, Bool.true_eq_false, if_false] at heq
  rcases hr1 : retryLoop e.recvResults1 with _ | r1 <;> rw [hr1] at heq <;>
    dsimp only at heq
  · exact absurd heq (by simp)
  · split_ifs at heq with h1
    · simp only [Option.some.injEq, Prod.mk.injEq] at heq
      exact heq.2.1.symm
    · rcases hr2 : retryLoop e.recvResults2 with _ | r2 <;> rw [hr2] at heq <;>
        dsimp only at heq
      · exact absurd heq (by simp)
      · split_ifs at heq with h2
        · simp only [Option.some.injEq, Prod.mk.injEq] at heq
          exact heq.2.1.symm
        · simp only [Option.some.injEq, Prod.mk.injEq] at heq
          exact absurd heq.1 (by decide)

/-- Witness for C10: a failing second read returns `RC_HTTPS_RECV_ERROR`
and nothing is stored through `recv_len`. -/
theorem c10_recv_len_untouched_witness :
    ssl_recv envRecvFail cTLS 100 = some (RC_HTTPS_RECV_ERROR, none,
      [Eff.recvLoop 0 100, Eff.recvLoop 4 96])
    ∧ (none : Option Int) = none :=
  ⟨by decide, c10_recv_len_untouched envRecvFail cTLS 100 rfl none
    [Eff.recvLoop 0 100, Eff.recvLoop 4 96] (by decide)⟩

/-- C4 counterexample: with a final record-send result of 0 on the
one-byte buffer [7] (length 1), `ssl_send` returns 0 — yet the peer
receives the empty prefix, not the 1 byte of the buffer, so one
non-negative result does not constitute delivery of the entire buffer. -/
theorem c4_send_counterexample :
    ssl_send envSendZero cTLS [7] 1 = some (0, [Eff.sendLoop 1])
    ∧ peerReceives envSendZero [7] ≠ some [7] := by decide

/-- C4 amended: on the TLS path a non-negative final record-send result
`r` makes `ssl_send` return 0, and the peer receives exactly the first
`r` bytes of the buffer in order — the entire buffer exactly when `r`
covers its length. -/
theorem c4_send_amended (e : Env) (c : Http) (buf : List Nat) (len r : Int)
    (h : c.ssl_enabled = true) (hr : retryLoop e.sendResults = some r)
    (hpos : 0 ≤ r) :
    ssl_send e c buf len = some (0, [Eff.sendLoop len])
    ∧ peerReceives e buf = some (buf.take r.toNat)
    ∧ (buf.length ≤ r.toNat → peerReceives e buf = some buf) := by
  refine ⟨?_, ?_, fun hlen => ?_⟩
  · simp [ssl_send, h, hr, not_lt.mpr hpos]
  · simp [peerReceives, hr, not_lt.mpr hpos]
  · simp [peerReceives, hr, not_lt.mpr hpos, List.take_of_length_le hlen]

/-- Witness for C4 (amended): a final send result of 5 on a 3-byte
buffer delivers the whole buffer and returns 0. -/
theorem c4_send_amended_witness :
    ssl_send envW cTLS [1, 2, 3] 3 = some (0, [Eff.sendLoop 3])
    ∧ peerReceives envW [1, 2, 3] = some [1, 2, 3] := by
  have h := c4_send_amended envW cTLS [1, 2, 3] 3 5 rfl (by decide) (by decide)
  exact ⟨h.1, h.2.2 (by decide)⟩

end Gnutls
